import Mathlib

/-!
# A verification model of `src/model.py`

`src/model.py` implements a Wavefront-OBJ mesh loader for a Python 2 /
PyOpenGL asteroids game: `ObjModel._parse_model` parses vertex, normal,
`mtllib`, `usemtl` and face records, `ObjModel._parsemat` parses a
material library, `ObjModel.render` replays the parsed polygons as
OpenGL calls, and `AsteroidModel.__init__` re-parses a base file and
randomly rescales its vertices.

This file embeds that code shallowly: file access becomes a function
`String → Option (List String)` from file names to their lines, Python
exceptions become an explicit error type threaded through `Except`, the
mutable `self` becomes explicit state records, and Python floats become
exact decimals (the source never adds or compares floats — it only
parses and multiplies them — so exact decimals are a faithful value
domain).  Face points store the table slots their indices resolved to,
which models the fact that the Python lists hold shared references to
mutable numpy arrays: an in-place update of the vertex table is visible
through every face that references it.
-/

set_option synthInstance.maxSize 512
set_option synthInstance.maxHeartbeats 400000

deriving instance DecidableEq for Except

namespace ObjModelSpec

/-- Exact decimal number with value `num / 10 ^ exp`.  The value domain of
the Python floats in `model.py`; the source only parses decimal literals
and multiplies them, both of which are exact on this representation. -/
structure Dec where
  num : Int
  exp : Nat
  deriving DecidableEq, Repr

/-- `a * b` on decimals, as numpy's elementwise float multiply. -/
def Dec.mul (a b : Dec) : Dec := ⟨a.num * b.num, a.exp + b.exp⟩

/-- The Python exceptions the code in `model.py` can raise. -/
inductive PyErr where
  | indexError
  | keyError
  | valueError
  | typeError
  | assertionError
  | fileNotFound
  deriving DecidableEq, Repr

/-! ## Python string primitives -/

/-- The whitespace set of Python 2 `str.strip()` / `str.split()`. -/
def pyIsSpace (c : Char) : Bool :=
  c = ' ' || c = '\t' || c = '\n' || c = '\r' || c = '\x0b' || c = '\x0c'

/-- Helper for `pySplit`: scan the characters, accumulating the current
token (in reverse) and emitting it at each whitespace run. -/
def splitAux : List Char → List Char → List String
  | [], [] => []
  | [], acc => [String.mk acc.reverse]
  | c :: cs, acc =>
    if pyIsSpace c then
      (if acc.isEmpty then splitAux cs [] else String.mk acc.reverse :: splitAux cs [])
    else splitAux cs (c :: acc)

/-- Python `s.split()`: split on whitespace runs, discarding empty
tokens. -/
def pySplit (s : String) : List String := splitAux s.data []

/-- Characters of Python `s.strip()`. -/
def stripChars (cs : List Char) : List Char :=
  ((cs.dropWhile pyIsSpace).reverse.dropWhile pyIsSpace).reverse

/-- Python `s.strip()`. -/
def pyStrip (s : String) : String := String.mk (stripChars s.data)

/-- Python `s.split("/")` (single-character separator, empty tokens
kept), accumulating the current token in reverse. -/
def splitSlash : List Char → List Char → List String
  | [], acc => [String.mk acc.reverse]
  | '/' :: cs, acc => String.mk acc.reverse :: splitSlash cs []
  | c :: cs, acc => splitSlash cs (c :: acc)

def isDigitChar (c : Char) : Bool := '0' ≤ c && c ≤ '9'

/-- Numeric value of a digit string. -/
def digitsVal (cs : List Char) : Nat :=
  cs.foldl (fun acc c => acc * 10 + (c.toNat - '0'.toNat)) 0

/-- Python `float(s)` on the decimal literals that occur in these
documents: an optional sign, then digits with an optional fraction part.
(Exponent notation and `inf`/`nan` never occur in OBJ files and are
rejected here.)  A malformed literal raises `ValueError`. -/
def parseFloat (s : String) : Except PyErr Dec :=
  let sc : Int × List Char :=
    match s.data with
    | '-' :: rest => ((-1 : Int), rest)
    | '+' :: rest => ((1 : Int), rest)
    | cs => ((1 : Int), cs)
  let ip := sc.2.takeWhile isDigitChar
  let rest := sc.2.dropWhile isDigitChar
  match rest with
  | [] =>
    if ip.isEmpty then .error .valueError
    else .ok ⟨sc.1 * (digitsVal ip : Int), 0⟩
  | '.' :: fp =>
    if fp.all isDigitChar && !(ip.isEmpty && fp.isEmpty) then
      .ok ⟨sc.1 * (digitsVal (ip ++ fp) : Int), fp.length⟩
    else .error .valueError
  | _ => .error .valueError

/-- Python `int(s)` on the index tokens of face components: an optional
sign followed by digits; anything else raises `ValueError`. -/
def parseInt (s : String) : Except PyErr Int :=
  let sc : Int × List Char :=
    match s.data with
    | '-' :: rest => ((-1 : Int), rest)
    | '+' :: rest => ((1 : Int), rest)
    | cs => ((1 : Int), cs)
  if sc.2.isEmpty then .error .valueError
  else if sc.2.all isDigitChar then .ok (sc.1 * (digitsVal sc.2 : Int))
  else .error .valueError

/-- Python list indexing `l[i]`: a negative index counts from the end;
an out-of-range index raises `IndexError`.  Returns the absolute slot so
that the caller can keep a reference to the shared entry. -/
def pySlot {α : Type} (l : List α) (i : Int) : Except PyErr Nat :=
  let j : Int := if i < 0 then (l.length : Int) + i else i
  if 0 ≤ j ∧ j < (l.length : Int) then .ok j.toNat else .error .indexError

/-! ## Association-list model of the Python dicts -/

/-- Dict lookup `d[k]` as an option. -/
def assocGet {κ β : Type} [DecidableEq κ] (l : List (κ × β)) (k : κ) : Option β :=
  match l with
  | [] => none
  | (k', v) :: rest => if k = k' then some v else assocGet rest k

/-- Dict assignment `d[k] = v`: replace the binding in place or append a
new one (last write wins, first insertion fixes the entry position). -/
def assocSet {κ β : Type} [DecidableEq κ] (l : List (κ × β)) (k : κ) (v : β) :
    List (κ × β) :=
  match l with
  | [] => [(k, v)]
  | (k', v') :: rest => if k = k' then (k', v) :: rest else (k', v') :: assocSet rest k v

/-- `defaultdict` access-and-mutate: `d[k]` materialises `dflt` on a
missing key, then the entry is updated with `f`. -/
def assocUpdate {κ β : Type} [DecidableEq κ] (l : List (κ × β)) (k : κ) (dflt : β)
    (f : β → β) : List (κ × β) :=
  match l with
  | [] => [(k, f dflt)]
  | (k', v) :: rest => if k = k' then (k', f v) :: rest else (k', v) :: assocUpdate rest k dflt f

/-- Lookup with a default (used only to observe parse results). -/
def assocGetD {κ β : Type} [DecidableEq κ] (l : List (κ × β)) (k : κ) (dflt : β) : β :=
  (assocGet l k).getD dflt

/-! ## Materials and `ObjModel._parsemat` -/

/-- `_Material`: four colour quadruples.  `mid` models Python object
identity — every `_Material(...)` construction yields a distinct object,
and the polygon dict is keyed by these objects. -/
structure Material where
  mid : Nat
  ambient : List Dec
  diffuse : List Dec
  specular : List Dec
  emission : List Dec
  deriving DecidableEq, Repr

/-- `_Material(*chans)`: the constructor body asserts that each of the
four colours has exactly 4 entries; a failing `assert` raises
`AssertionError`.  Calling it with anything but four positional colours
(`*None`) raises `TypeError`. -/
def mkMaterial (mid : Nat) (chans : List (List Dec)) : Except PyErr Material :=
  match chans with
  | [a, d, sp, e] =>
    if a.length = 4 ∧ d.length = 4 ∧ sp.length = 4 ∧ e.length = 4 then
      .ok ⟨mid, a, d, sp, e⟩
    else .error .assertionError
  | _ => .error .typeError

/-- State of `ObjModel._parsemat` while scanning a material file: the
shared registry `self.mats`, the name and channel list of the material
under construction (`matname`, `mat`), and the fresh-identity counter. -/
structure MState where
  mats : List (String × Material)
  matname : Option String
  mat : Option (List (List Dec))
  counter : Nat
  deriving DecidableEq, Repr

/-- The colour expansion in `_parsemat`: one value is replicated three
times and alpha `0.0` appended (`color *= 3; color.append(0.0)`), three
values get alpha `0.0` appended; every other count — including 4 — is
left exactly as parsed, with no error raised here. -/
def expandColor (color : List Dec) : List Dec :=
  if color.length = 1 then color ++ color ++ color ++ [⟨0, 0⟩]
  else if color.length = 3 then color ++ [⟨0, 0⟩]
  else color

/-- The dict `m = {'a': 0, 'd': 1, 's': 2, 'e': 3}` indexed with the raw
line's second character; a missing key raises `KeyError`. -/
def channelIndex (c : Char) : Except PyErr Nat :=
  match c with
  | 'a' => .ok 0
  | 'd' => .ok 1
  | 's' => .ok 2
  | 'e' => .ok 3
  | _ => .error .keyError

/-- Python `line[1]` on the raw (unstripped) line. -/
def secondChar (line : String) : Except PyErr Char :=
  match line.data with
  | _ :: c :: _ => .ok c
  | _ => .error .indexError

/-- `if matname: self.mats[matname] = _Material(*mat)` — finalise the
material under construction into the registry.  (`matname` is `None` or a
whitespace-split token, hence nonempty, so Python truthiness coincides
with `isSome`; `mat` is always set together with `matname`.) -/
def saveCurrent (st : MState) : Except PyErr MState :=
  match st.matname with
  | none => .ok st
  | some name =>
    match st.mat with
    | none => .error .typeError
    | some chans => do
      let m ← mkMaterial st.counter chans
      .ok { st with mats := assocSet st.mats name m, counter := st.counter + 1 }

/-- One line of `_parsemat`: blank lines are skipped, `newmtl` finalises
the previous material and starts a new one with all four channels
`(0,0,0,0)`, the `Ka`/`Kd`/`Ks`/`Ke` branch parses the values, expands
them, and stores them at channel `m[line[1]]` of the material in
progress; every other keyword is silently ignored. -/
def parsematLine (st : MState) (line : String) : Except PyErr MState :=
  match pySplit (pyStrip line) with
  | [] => .ok st
  | w :: _ =>
    if w = "newmtl" then do
      let st1 ← saveCurrent st
      match (pySplit line).get? 1 with
      | none => .error .indexError
      | some name =>
        .ok { st1 with matname := some name,
                       mat := some (List.replicate 4 [⟨0, 0⟩, ⟨0, 0⟩, ⟨0, 0⟩, ⟨0, 0⟩]) }
    else if w = "Ka" ∨ w = "Kd" ∨ w = "Ks" ∨ w = "Ke" then do
      let color ← ((pySplit line).drop 1).mapM parseFloat
      let expanded := expandColor color
      let c ← secondChar line
      let idx ← channelIndex c
      match st.mat with
      | none => .error .typeError
      | some chans => .ok { st with mat := some (chans.set idx expanded) }
    else .ok st

/-- `ObjModel._parsemat(filename)`: open the file through the ambient
file system `fs` (a missing file raises `IOError`), fold `parsematLine`
over its lines, and finalise the last material.  Returns the updated
registry and identity counter. -/
def parsemat (fs : String → Option (List String)) (mats : List (String × Material))
    (counter : Nat) (filename : String) :
    Except PyErr (List (String × Material) × Nat) :=
  match fs filename with
  | none => .error .fileNotFound
  | some lines => do
    let st ← lines.foldlM parsematLine ⟨mats, none, none, counter⟩
    let st ← saveCurrent st
    .ok (st.mats, st.counter)

/-! ## `ObjModel._parse_model` -/

abbrev Vec3 := Dec × Dec × Dec

/-- A point of a face: the slots in `self.vertices` / `self.normals`
that its indices resolved to.  The Python code appends references to the
numpy arrays held in those tables; keeping the slot models that
aliasing. -/
abbrev FacePoint := Nat × Nat

abbrev Poly := List FacePoint

/-- One value of `self.polys`: the `(triangles, quadralaterals,
polygons)` bucket triple. -/
abbrev Batch := List Poly × List Poly × List Poly

/-- State built up by `ObjModel._parse_model`.  Slot 0 of `vertices` and
`normals` holds the `None` placeholder so that OBJ's 1-based indices land
on slots 1..; `polys` is the `defaultdict` from current material (a
`_Material` object or `None`) to bucket triple, in first-insertion
order. -/
structure GState where
  vertices : List (Option Vec3)
  normals : List (Option Vec3)
  mats : List (String × Material)
  polys : List (Option Material × Batch)
  currentmat : Option Material
  counter : Nat
  deriving DecidableEq, Repr

def initGState : GState := ⟨[none], [none], [], [], none, 0⟩

/-- One iteration of the face-component loop:
`point, texture, normal = component.split("/")` (a component with any
other shape fails tuple unpacking with `ValueError`), then
`vertex = self.vertices[int(point)]` and
`normalv = self.normals[int(normal)]`.  The texture token is split off
but never parsed. -/
def parsePoint (s : GState) (component : String) : Except PyErr FacePoint :=
  match splitSlash component.data [] with
  | [point, _texture, normal] => do
    let vi ← parseInt point
    let vslot ← pySlot s.vertices vi
    let ni ← parseInt normal
    let nslot ← pySlot s.normals ni
    .ok (vslot, nslot)
  | _ => .error .valueError

/-- `self.polys[currentmat][i].append(points)` with `i = 0` for exactly
3 points, `i = 1` for exactly 4, and `i = 2` for every other count;
`self.polys` is a `defaultdict` materialising `([], [], [])` on first
access to a key. -/
def addFace (polys : List (Option Material × Batch)) (key : Option Material)
    (pts : Poly) : List (Option Material × Batch) :=
  assocUpdate polys key ([], [], []) (fun b =>
    if pts.length = 3 then (b.1 ++ [pts], b.2.1, b.2.2)
    else if pts.length = 4 then (b.1, b.2.1 ++ [pts], b.2.2)
    else (b.1, b.2.1, b.2.2 ++ [pts]))

/-- One line of `ObjModel._parse_model`.  Blank lines are skipped; `v` /
`vn` unpack exactly four tokens and append a parsed vector to the
corresponding table; `mtllib` parses each named material file into the
shared registry; `usemtl` looks the name up in the registry (`KeyError`
if absent) and makes it current; `f` resolves each component and files
the point list under the current material; unrecognised keywords are
silently ignored. -/
def parseLine (fs : String → Option (List String)) (s : GState) (line : String) :
    Except PyErr GState :=
  if pyStrip line = "" then .ok s
  else
    match pySplit (pyStrip line) with
    | [] => .error .indexError
    | w :: rest =>
      if w = "v" then
        match pySplit line with
        | [_, p1, p2, p3] => do
          let f1 ← parseFloat p1
          let f2 ← parseFloat p2
          let f3 ← parseFloat p3
          .ok { s with vertices := s.vertices ++ [some (f1, f2, f3)] }
        | _ => .error .valueError
      else if w = "vn" then
        match pySplit line with
        | [_, p1, p2, p3] => do
          let f1 ← parseFloat p1
          let f2 ← parseFloat p2
          let f3 ← parseFloat p3
          .ok { s with normals := s.normals ++ [some (f1, f2, f3)] }
        | _ => .error .valueError
      else if w = "mtllib" then do
        let r ← rest.foldlM
          (fun (acc : List (String × Material) × Nat) fn => parsemat fs acc.1 acc.2 fn)
          (s.mats, s.counter)
        .ok { s with mats := r.1, counter := r.2 }
      else if w = "usemtl" then
        match (pySplit line).get? 1 with
        | none => .error .indexError
        | some name =>
          match assocGet s.mats name with
          | none => .error .keyError
          | some m => .ok { s with currentmat := some m }
      else if w = "f" then
        match pySplit line with
        | [] => .error .indexError
        | [_] => .error .indexError
        | _ :: comps => do
          let points ← comps.mapM (parsePoint s)
          .ok { s with polys := addFace s.polys s.currentmat points }
      else .ok s

def parseLines (fs : String → Option (List String)) (s₀ : GState)
    (lines : List String) : Except PyErr GState :=
  lines.foldlM (parseLine fs) s₀

/-- `ObjModel._parse_model` over the lines of the geometry document. -/
def parse_model (fs : String → Option (List String)) (lines : List String) :
    Except PyErr GState :=
  parseLines fs initGState lines

/-! ## `AsteroidModel`: procedural perturbation -/

/-- `vertex * r` — numpy's elementwise scalar multiply. -/
def scaleVec (v : Vec3) (r : Dec) : Vec3 := (v.1.mul r, v.2.1.mul r, v.2.2.mul r)

/-- The loop `for vertex in self.vertices[1:]: vertex *= random.uniform(0.7, 1.3)`
over the tail of the table, position `k` of the tail consuming draw
`rng k`.  The multiply is in place on the shared numpy arrays, so the
table entries themselves change.  (`None *= r` would raise `TypeError`;
only slot 0 holds `None` and the slice skips it.) -/
def perturbTail (rng : Nat → Dec) : Nat → List (Option Vec3) → Except PyErr (List (Option Vec3))
  | _, [] => .ok []
  | _, none :: _ => .error .typeError
  | k, some v :: restv => do
    let rest' ← perturbTail rng (k + 1) restv
    .ok (some (scaleVec v (rng k)) :: rest')

/-- The whole perturbation pass: slot 0 (the placeholder) is untouched,
every later slot is scaled by its draw. -/
def perturbVertices (vs : List (Option Vec3)) (rng : Nat → Dec) :
    Except PyErr (List (Option Vec3)) :=
  match vs with
  | [] => .ok []
  | v0 :: restv => do
    let rest' ← perturbTail rng 0 restv
    .ok (v0 :: rest')

/-- `AsteroidModel.__init__` without the display-list call: re-parse
`asteroid.obj` through `fs`, then scale the vertex table in place, `rng`
being the stream of values `random.uniform(0.7, 1.3)` returns. -/
def asteroidInit (fs : String → Option (List String)) (rng : Nat → Dec) :
    Except PyErr GState :=
  match fs "asteroid.obj" with
  | none => .error .fileNotFound
  | some lines => do
    let s ← parse_model fs lines
    let vs' ← perturbVertices s.vertices rng
    .ok { s with vertices := vs' }

/-! ## `ObjModel.render` as an event trace -/

inductive PrimMode where
  | triangles | quads | polygon
  deriving DecidableEq, Repr

/-- The OpenGL calls `ObjModel.render` and `_Material.activate` issue. -/
inductive GLCmd where
  | matAmbient (color : List Dec)
  | matDiffuse (color : List Dec)
  | matSpecular (color : List Dec)
  | matEmission (color : List Dec)
  | beginPrim (mode : PrimMode)
  | endPrim
  | glNormal (v : Option Vec3)
  | glVertex (v : Option Vec3)
  deriving DecidableEq, Repr

/-- `_Material.activate`: only the ambient and diffuse `glMaterialfv`
calls are live; the specular and emission lines are commented out in the
source. -/
def Material.activate (m : Material) : List GLCmd :=
  [.matAmbient m.ambient, .matDiffuse m.diffuse]

/-- `glNormal3dv(n); glVertex3dv(pt)` for one stored point, dereferencing
the table slots the face kept. -/
def pointCmds (s : GState) (p : FacePoint) : List GLCmd :=
  [.glNormal (s.normals.getD p.2 none), .glVertex (s.vertices.getD p.1 none)]

/-- Emission of one bucket triple: a single `GL_TRIANGLES` batch, a
single `GL_QUADS` batch (each only if nonempty, matching
`if triangles:` / `if quads:`), then one `GL_POLYGON` per general
polygon.  Every list in the first bucket has exactly 3 points and every
list in the second exactly 4 by construction in `addFace`. -/
def batchCmds (s : GState) (b : Batch) : List GLCmd :=
  (if b.1.isEmpty then [] else
    [.beginPrim .triangles] ++
    (b.1.flatMap (fun poly =>
      match poly with
      | [p1, p2, p3] => pointCmds s p1 ++ pointCmds s p2 ++ pointCmds s p3
      | _ => [])) ++
    [.endPrim]) ++
  (if b.2.1.isEmpty then [] else
    [.beginPrim .quads] ++
    (b.2.1.flatMap (fun poly =>
      match poly with
      | [p1, p2, p3, p4] =>
        pointCmds s p1 ++ pointCmds s p2 ++ pointCmds s p3 ++ pointCmds s p4
      | _ => [])) ++
    [.endPrim]) ++
  (b.2.2.flatMap (fun poly => [.beginPrim .polygon] ++ poly.flatMap (pointCmds s) ++ [.endPrim]))

/-- `ObjModel.render`: for each entry of the polygon dict, `if texture:
texture.activate()` (the `None` key is falsy, `_Material` objects are
truthy) followed by the bucket emission.  The Python 2 dict iterates in
hash/identity order; the model iterates entries in first-insertion
order, which is sound for the order-insensitive properties proved
here. -/
def render (s : GState) : List GLCmd :=
  s.polys.flatMap (fun kv =>
    (match kv.1 with
     | some m => m.activate
     | none => []) ++ batchCmds s kv.2)

/-- Does a GL event apply a specular or emission component? -/
def isSpecOrEmission (c : GLCmd) : Bool :=
  match c with
  | .matSpecular _ => true
  | .matEmission _ => true
  | _ => false

/-- First whitespace-split token of a line, as `_parsemat` dispatches on
it (`lineparts[0]`). -/
def firstTok (line : String) : Option String := (pySplit (pyStrip line)).head?

/-- Is a line's keyword one of the colour records `Ka`/`Kd`/`Ks`/`Ke`? -/
def isColorKw (t : Option String) : Bool :=
  match t with
  | some w => w = "Ka" || w = "Kd" || w = "Ks" || w = "Ke"
  | none => false

/-! ## Concrete documents used to instantiate the theorems -/

/-- A file system with no files (documents without `mtllib` need none). -/
def fsNone : String → Option (List String) := fun _ => none

/-- Geometry document whose face references vertex index 0 and normal
index 0 in its first component. -/
def docZeroIx : List String := ["v 1 2 3", "vn 0 0 1", "f 0/0/0 1/1/1 1/1/1"]

/-- Geometry document with a 2-point face. -/
def docTwoPt : List String := ["v 1 2 3", "vn 0 0 1", "f 1/0/1 1/0/1"]

/-- Material library in which a 2-value `Ka` record is later overwritten
by a well-formed one. -/
def fsMasked : String → Option (List String) :=
  fun n => if n = "m.mtl" then some ["newmtl m", "Ka 1 2", "Ka 1 2 3"] else none

/-- Base asteroid file: one vertex, one normal, one triangle. -/
def docAst : List String := ["v 1 1 1", "vn 0 0 1", "f 1/0/1 1/0/1 1/0/1"]

def fsAst : String → Option (List String) :=
  fun n => if n = "asteroid.obj" then some docAst else none

/-- The state `_parse_model` produces on `docAst`. -/
def stAst : GState :=
  ⟨[none, some (⟨1, 0⟩, ⟨1, 0⟩, ⟨1, 0⟩)],
   [none, some (⟨0, 0⟩, ⟨0, 0⟩, ⟨1, 0⟩)],
   [], [(none, ([[(1, 1), (1, 1), (1, 1)]], [], []))], none, 0⟩

/-- `stAst`'s vertex table rescaled in place by the constant draw 2. -/
def vsAst2 : List (Option Vec3) := [none, some (⟨2, 0⟩, ⟨2, 0⟩, ⟨2, 0⟩)]

/-- A material with well-formed colour channels. -/
def matGray : Material :=
  ⟨0, [⟨5, 1⟩, ⟨5, 1⟩, ⟨5, 1⟩, ⟨0, 0⟩], [⟨5, 1⟩, ⟨5, 1⟩, ⟨5, 1⟩, ⟨0, 0⟩],
   [⟨0, 0⟩, ⟨0, 0⟩, ⟨0, 0⟩, ⟨0, 0⟩], [⟨0, 0⟩, ⟨0, 0⟩, ⟨0, 0⟩, ⟨0, 0⟩]⟩

/-- A state with one material key, for instantiating the render theorem. -/
def stRender : GState := { initGState with polys := [(some matGray, ([], [], []))] }

/-- Material library whose first colour record precedes any `newmtl`. -/
def fsEarlyColor : String → Option (List String) :=
  fun n => if n = "a.mtl" then some ["# comment", "Ka 1 1 1", "newmtl m"] else none

/-- `_parsemat` state inside a material, all channels zeroed. -/
def stInMat : MState :=
  ⟨[], some "m", some (List.replicate 4 [⟨0, 0⟩, ⟨0, 0⟩, ⟨0, 0⟩, ⟨0, 0⟩]), 0⟩

/-! ## Helper lemmas -/

theorem Dec.mul_unit (a : Dec) : Dec.mul a ⟨1, 0⟩ = a := by
  cases a; simp [Dec.mul]

theorem scaleVec_unit (v : Vec3) : scaleVec v ⟨1, 0⟩ = v := by
  obtain ⟨a, b, c⟩ := v
  simp [scaleVec, Dec.mul_unit]

/-- `defaultdict` update commutes with lookup at the same key. -/
theorem assocGetD_assocUpdate {κ β : Type} [DecidableEq κ] (l : List (κ × β)) (k : κ)
    (d : β) (f : β → β) :
    assocGetD (assocUpdate l k d f) k d = f (assocGetD l k d) := by
  induction l with
  | nil => simp [assocUpdate, assocGetD, assocGet]
  | cons kv rest ih =>
    obtain ⟨k', v⟩ := kv
    by_cases h : k = k'
    · simp [assocUpdate, assocGetD, assocGet, h]
    · simp only [assocUpdate, assocGetD, assocGet, if_neg h] at ih ⊢
      exact ih

/-- On a nonempty accumulator, the first token `splitAux` produces starts
with the accumulated characters. -/
theorem splitAux_cons_acc (cs : List Char) (a : Char) (acc : List Char) :
    ∃ t r, splitAux cs (a :: acc) = String.mk ((a :: acc).reverse ++ t) :: r := by
  induction cs generalizing a acc with
  | nil => exact ⟨[], [], by simp [splitAux]⟩
  | cons c cs ih =>
    by_cases h : pyIsSpace c
    · exact ⟨[], splitAux cs [], by simp [splitAux, h]⟩
    · obtain ⟨t, r, ht⟩ := ih c (a :: acc)
      refine ⟨c :: t, r, ?_⟩
      simp [splitAux, h, ht, List.append_assoc]

theorem pySlot_oob {α : Type} (l : List α) (i : Int) (h0 : 0 ≤ i)
    (h : (l.length : Int) ≤ i) : pySlot l i = .error .indexError := by
  have hn : ¬ i < 0 := by omega
  simp only [pySlot, if_neg hn]
  rw [if_neg]
  omega

theorem pySlot_zero {α : Type} (l : List α) (h : l ≠ []) : pySlot l 0 = .ok 0 := by
  have hlen : 0 < l.length := List.length_pos.mpr h
  simp only [pySlot]
  rw [if_neg (by omega : ¬ (0 : Int) < 0), if_pos (by constructor <;> omega)]
  rfl

/-- `channelIndex` fails on anything but the four channel letters. -/
theorem channelIndex_notfound (c : Char) (ha : c ≠ 'a') (hd : c ≠ 'd') (hs : c ≠ 's')
    (he : c ≠ 'e') : channelIndex c = .error .keyError := by
  unfold channelIndex
  split <;> first | rfl | (exfalso; simp_all)

/-- A successfully parsed line only ever appends non-`None` entries to
the vertex table (the `v` branch appends one parsed vector; no branch
removes or overwrites entries). -/
theorem parseLine_vertices (fs : String → Option (List String)) (s s' : GState)
    (line : String) (h : parseLine fs s line = .ok s') :
    ∃ ap, s'.vertices = s.vertices ++ ap ∧ ∀ v ∈ ap, v ≠ none := by
  unfold parseLine at h
  split at h
  · injection h with h
    exact ⟨[], by simp [← h], by simp⟩
  · split at h
    · exact absurd h (by simp)
    next w tl hsp =>
      split at h
      · -- `v`
        split at h
        next e0 q1 q2 q3 hq =>
          cases hf1 : parseFloat q1 with
          | error e => rw [hf1] at h; simp [bind, Except.bind] at h
          | ok f1 =>
            rw [hf1] at h; simp only [bind, Except.bind] at h
            cases hf2 : parseFloat q2 with
            | error e => rw [hf2] at h; simp [Except.bind] at h
            | ok f2 =>
              rw [hf2] at h; simp only [Except.bind] at h
              cases hf3 : parseFloat q3 with
              | error e => rw [hf3] at h; simp [Except.bind] at h
              | ok f3 =>
                rw [hf3] at h; simp only [Except.bind] at h
                injection h with h
                exact ⟨[some (f1, f2, f3)], by simp [← h], by simp⟩
        next => exact absurd h (by simp)
      · split at h
        · -- `vn`
          split at h
          next e0 q1 q2 q3 hq =>
            cases hf1 : parseFloat q1 with
            | error e => rw [hf1] at h; simp [bind, Except.bind] at h
            | ok f1 =>
              rw [hf1] at h; simp only [bind, Except.bind] at h
              cases hf2 : parseFloat q2 with
              | error e => rw [hf2] at h; simp [Except.bind] at h
              | ok f2 =>
                rw [hf2] at h; simp only [Except.bind] at h
                cases hf3 : parseFloat q3 with
                | error e => rw [hf3] at h; simp [Except.bind] at h
                | ok f3 =>
                  rw [hf3] at h; simp only [Except.bind] at h
                  injection h with h
                  exact ⟨[], by simp [← h], by simp⟩
          next => exact absurd h (by simp)
        · split at h
          · -- `mtllib`
            cases hf : tl.foldlM
                (fun (acc : List (String × Material) × Nat) fn => parsemat fs acc.1 acc.2 fn)
                (s.mats, s.counter) with
            | error e => rw [hf] at h; simp [bind, Except.bind] at h
            | ok r =>
              rw [hf] at h; simp only [bind, Except.bind] at h
              injection h with h
              exact ⟨[], by simp [← h], by simp⟩
          · split at h
            · -- `usemtl`
              split at h
              · exact absurd h (by simp)
              · split at h
                · exact absurd h (by simp)
                · injection h with h
                  exact ⟨[], by simp [← h], by simp⟩
            · split at h
              · -- `f`
                split at h
                · exact absurd h (by simp)
                · exact absurd h (by simp)
                next hd comps hne hq =>
                  cases hm : comps.mapM (parsePoint s) with
                  | error e => rw [hm] at h; simp [bind, Except.bind] at h
                  | ok points =>
                    rw [hm] at h; simp only [bind, Except.bind] at h
                    injection h with h
                    exact ⟨[], by simp [← h], by simp⟩
              · -- unrecognised keyword
                injection h with h
                exact ⟨[], by simp [← h], by simp⟩

/-- Folding the line parser preserves the append-only, non-`None` shape
of the vertex table. -/
theorem parseLines_vertices (fs : String → Option (List String)) (lines : List String)
    (s s' : GState) (h : parseLines fs s lines = .ok s') :
    ∃ ap, s'.vertices = s.vertices ++ ap ∧ ∀ v ∈ ap, v ≠ none := by
  induction lines generalizing s with
  | nil =>
    simp only [parseLines, List.foldlM] at h
    injection h with h
    exact ⟨[], by simp [← h], by simp⟩
  | cons l ls ih =>
    simp only [parseLines, List.foldlM] at h
    cases hl : parseLine fs s l with
    | error e => rw [hl] at h; simp [bind, Except.bind] at h
    | ok s1 =>
      rw [hl] at h; simp only [bind, Except.bind] at h
      obtain ⟨ap1, hv1, hn1⟩ := parseLine_vertices fs s s1 l hl
      obtain ⟨ap2, hv2, hn2⟩ := ih s1 h
      refine ⟨ap1 ++ ap2, by rw [hv2, hv1, List.append_assoc], ?_⟩
      intro v hv
      rcases List.mem_append.mp hv with hv | hv
      · exact hn1 v hv
      · exact hn2 v hv

/-- Any state `_parse_model` produces keeps the `None` placeholder at
slot 0 of the vertex table and real (non-`None`) vertices after it. -/
theorem parse_model_vertices (fs : String → Option (List String)) (lines : List String)
    (s : GState) (h : parse_model fs lines = .ok s) :
    ∃ ap, s.vertices = none :: ap ∧ ∀ v ∈ ap, v ≠ none := by
  obtain ⟨ap, hv, hn⟩ := parseLines_vertices fs lines initGState s h
  exact ⟨ap, by simpa [initGState] using hv, hn⟩

/-- Characterisation of a successful perturbation pass over the table
tail: lengths agree and every defined entry is scaled by its draw. -/
theorem perturbTail_sound (rng : Nat → Dec) (k : Nat) (l lp : List (Option Vec3))
    (h : perturbTail rng k l = .ok lp) :
    lp.length = l.length ∧
      ∀ j v, l.get? j = some (some v) →
        lp.get? j = some (some (scaleVec v (rng (k + j)))) := by
  induction l generalizing k lp with
  | nil =>
    simp only [perturbTail] at h
    injection h with h
    simp [← h]
  | cons v0 rest ih =>
    cases v0 with
    | none => simp [perturbTail] at h
    | some v =>
      simp only [perturbTail] at h
      cases hr : perturbTail rng (k + 1) rest with
      | error e => rw [hr] at h; simp [bind, Except.bind] at h
      | ok restp =>
        rw [hr] at h; simp only [bind, Except.bind] at h
        injection h with h
        obtain ⟨hlen, hget⟩ := ih (k + 1) restp hr
        refine ⟨by simp [← h, hlen], ?_⟩
        intro j w hj
        cases j with
        | zero =>
          simp only [List.get?] at hj
          injection hj with hj
          injection hj with hj
          subst hj
          simp [← h]
        | succ j =>
          simp only [List.get?] at hj ⊢
          rw [← h]
          have := hget j w hj
          simpa [Nat.add_assoc, Nat.add_comm 1 j] using this

/-- A tail whose entries are all defined perturbs successfully. -/
theorem perturbTail_total (rng : Nat → Dec) (k : Nat) (l : List (Option Vec3))
    (h : ∀ v ∈ l, v ≠ none) : ∃ lp, perturbTail rng k l = .ok lp := by
  induction l generalizing k with
  | nil => exact ⟨[], rfl⟩
  | cons v0 rest ih =>
    cases v0 with
    | none => exact absurd rfl (h none (by simp))
    | some v =>
      obtain ⟨lp, hlp⟩ := ih (k + 1) (fun w hw => h w (by simp [hw]))
      exact ⟨some (scaleVec v (rng k)) :: lp, by simp [perturbTail, hlp, bind, Except.bind]⟩

/-- With every draw equal to 1, the in-place scaling is the identity. -/
theorem perturbTail_unit (k : Nat) (l : List (Option Vec3))
    (h : ∀ v ∈ l, v ≠ none) : perturbTail (fun _ => ⟨1, 0⟩) k l = .ok l := by
  induction l generalizing k with
  | nil => rfl
  | cons v0 rest ih =>
    cases v0 with
    | none => exact absurd rfl (h none (by simp))
    | some v =>
      have hr := ih (k + 1) (fun w hw => h w (by simp [hw]))
      simp [perturbTail, hr, bind, Except.bind, scaleVec_unit]

/-! ## Claim C1: face index resolution -/

/-- C1 (amended): in the face-component resolution of `_parse_model`, a
vertex or normal index strictly greater than the number of entries
defined so far (equivalently, at least the table length — the table
holds the `None` placeholder at slot 0) fails with `IndexError` (the
spec's `ReferenceError`); but an index of exactly 0 does NOT fail: it
resolves to slot 0, the `None` placeholder, and the face silently keeps
that placeholder point. -/
theorem c1_index_resolution (s : GState) (comp pstr tstr nstr : String) (i : Int)
    (hsplit : splitSlash comp.data [] = [pstr, tstr, nstr])
    (hi : parseInt pstr = .ok i) :
    (0 < i → (s.vertices.length : Int) ≤ i →
      parsePoint s comp = .error .indexError) ∧
    (i = 0 → s.vertices ≠ [] →
      parsePoint s comp =
        (parseInt nstr).bind (fun ni => (pySlot s.normals ni).map (fun ns => (0, ns)))) ∧
    (∀ j vs, parseInt nstr = .ok j → pySlot s.vertices i = .ok vs →
      0 < j → (s.normals.length : Int) ≤ j →
      parsePoint s comp = .error .indexError) := by
  refine ⟨?_, ?_, ?_⟩
  · intro hpos hlen
    simp only [parsePoint, hsplit, hi, bind, Except.bind]
    rw [pySlot_oob s.vertices i (le_of_lt hpos) hlen]
  · intro hz hne
    subst hz
    simp only [parsePoint, hsplit, hi, bind, Except.bind]
    rw [pySlot_zero s.vertices hne]
    cases hn : parseInt nstr with
    | error e => simp [Except.bind, Except.map]
    | ok j =>
      cases hns : pySlot s.normals j with
      | error e => simp [Except.bind, Except.map, hns]
      | ok ns => simp [Except.bind, Except.map, hns]
  · intro j vs hj hvs hjpos hjlen
    simp only [parsePoint, hsplit, hi, bind, Except.bind]
    rw [hvs, hj]
    simp [pySlot_oob s.normals j (le_of_lt hjpos) hjlen]

/-- C1 (counterexample to the claim as stated): a document whose face
uses vertex index 0 and normal index 0 parses without any error; the
face is stored referencing slot 0 of both tables, which hold the `None`
placeholders — no `ReferenceError` occurs for a zero index. -/
theorem c1_zero_index_accepted :
    (parse_model fsNone docZeroIx).map
        (fun st => ((assocGetD st.polys none ([], [], [])).1,
                    st.vertices.getD 0 none, st.normals.getD 0 none)) =
      .ok ([[(0, 0), (1, 1), (1, 1)]], none, none) := by decide

/-- Witness: with one vertex defined (table length 2 with the
placeholder), vertex index 3 fails with `IndexError`. -/
theorem c1_index_resolution_witness :
    parsePoint stAst "3/0/1" = .error .indexError :=
  (c1_index_resolution stAst "3/0/1" "3" "0" "1" 3 (by decide) (by decide)).1
    (by decide) (by decide)

/-! ## Claim C2: face arity classification -/

/-- C2 (amended): classification by resolved point-list size files a
3-point face in the triangle bucket and a 4-point face in the quad
bucket, but EVERY other size — 0, 1 and 2 included — goes to the
general-polygon bucket: the `else` branch catches them, there is no
`DegenerateFaceError` anywhere in the code, and a face with fewer than 3
points is accepted without failure. -/
theorem c2_arity_classification (polys : List (Option Material × Batch))
    (key : Option Material) (pts : Poly) :
    (pts.length = 3 →
      assocGetD (addFace polys key pts) key ([], [], []) =
        ((assocGetD polys key ([], [], [])).1 ++ [pts],
         (assocGetD polys key ([], [], [])).2.1,
         (assocGetD polys key ([], [], [])).2.2)) ∧
    (pts.length = 4 →
      assocGetD (addFace polys key pts) key ([], [], []) =
        ((assocGetD polys key ([], [], [])).1,
         (assocGetD polys key ([], [], [])).2.1 ++ [pts],
         (assocGetD polys key ([], [], [])).2.2)) ∧
    (pts.length ≠ 3 → pts.length ≠ 4 →
      assocGetD (addFace polys key pts) key ([], [], []) =
        ((assocGetD polys key ([], [], [])).1,
         (assocGetD polys key ([], [], [])).2.1,
         (assocGetD polys key ([], [], [])).2.2 ++ [pts])) := by
  refine ⟨?_, ?_, ?_⟩
  · intro h3
    rw [addFace, assocGetD_assocUpdate]
    simp [h3]
  · intro h4
    rw [addFace, assocGetD_assocUpdate]
    simp [h4]
  · intro h3 h4
    rw [addFace, assocGetD_assocUpdate]
    simp [h3, h4]

/-- C2 (counterexample to the claim as stated): a document with a
2-point face parses successfully — no `DegenerateFaceError` — and the
face lands in the general-polygon bucket. -/
theorem c2_twopoint_accepted :
    (parse_model fsNone docTwoPt).map
        (fun st =>
          ((assocGetD st.polys none ([], [], [])).1.length,
           (assocGetD st.polys none ([], [], [])).2.1.length,
           (assocGetD st.polys none ([], [], [])).2.2)) =
      .ok (0, 0, [[(1, 1), (1, 1)]]) := by decide

/-- Witness: a 2-point face appended to an empty polygon dict ends up in
the third (general-polygon) bucket. -/
theorem c2_arity_classification_witness :
    assocGetD (addFace [] none [(1, 1), (1, 1)]) none ([], [], []) =
      ([], [], [[(1, 1), (1, 1)]]) :=
  (c2_arity_classification [] none [(1, 1), (1, 1)]).2.2 (by decide) (by decide)

/-! ## Claim C3: colour expansion -/

/-- C3 (amended): the colour expansion of `_parsemat` replicates a
single value into R,G,B with alpha 0.0 appended and appends alpha 0.0 to
exactly three values, but any other count — 4 included — is stored
exactly as parsed, with NO error raised at the record itself; a channel
left with a length other than 4 only fails later, via the `assert` in
`_Material.__init__` (`AssertionError`), when the enclosing material is
finalised — and a later well-formed record for the same channel masks
the malformed one entirely. -/
theorem c3_color_expansion (c : Dec) (color : List Dec) (mid : Nat)
    (a d sp e : List Dec) :
    (expandColor [c] = [c, c, c, ⟨0, 0⟩]) ∧
    (color.length = 3 → expandColor color = color ++ [⟨0, 0⟩]) ∧
    (color.length ≠ 1 → color.length ≠ 3 → expandColor color = color) ∧
    (a.length ≠ 4 → mkMaterial mid [a, d, sp, e] = .error .assertionError) := by
  refine ⟨by simp [expandColor], ?_, ?_, ?_⟩
  · intro h3
    simp [expandColor, h3]
  · intro h1 h3
    simp [expandColor, h1, h3]
  · intro ha
    simp [mkMaterial, ha]

/-- C3 (counterexample to the claim as stated): a library containing the
2-value record `Ka 1 2` parses successfully — no failure at the record;
a later `Ka 1 2 3` overwrites the channel before finalisation. -/
theorem c3_malformed_color_masked :
    (parsemat fsMasked [] 0 "m.mtl").map
        (fun r => (assocGet r.1 "m").map Material.ambient) =
      .ok (some [⟨1, 0⟩, ⟨2, 0⟩, ⟨3, 0⟩, ⟨0, 0⟩]) := by decide

/-- Witness: a 2-value colour is stored unexpanded, and a material
finalised with such a channel fails the length-4 assertion. -/
theorem c3_color_expansion_witness :
    expandColor [⟨1, 0⟩, ⟨2, 0⟩] = [⟨1, 0⟩, ⟨2, 0⟩] ∧
    mkMaterial 0 [[⟨1, 0⟩, ⟨2, 0⟩], [], [], []] = .error .assertionError :=
  ⟨(c3_color_expansion ⟨0, 0⟩ [⟨1, 0⟩, ⟨2, 0⟩] 0 [] [] [] []).2.2.1
      (by decide) (by decide),
   (c3_color_expansion ⟨0, 0⟩ [] 0 [⟨1, 0⟩, ⟨2, 0⟩] [] [] []).2.2.2 (by decide)⟩

/-! ## Claim C4: `usemtl` -/

/-- C4: in the `usemtl` branch of `_parse_model`, a name absent from the
material registry fails with `KeyError` — the dictionary lookup
`self.mats[...]` that the spec calls `MaterialNotFoundError` — while a
registered name becomes the current material for subsequent faces, with
everything else in the state unchanged. -/
theorem c4_usemtl (fs : String → Option (List String)) (s : GState)
    (line name : String) (rest : List String)
    (hnb : pyStrip line ≠ "")
    (hsp : pySplit (pyStrip line) = "usemtl" :: rest)
    (hname : (pySplit line).get? 1 = some name) :
    (assocGet s.mats name = none → parseLine fs s line = .error .keyError) ∧
    (∀ m, assocGet s.mats name = some m →
      parseLine fs s line = .ok { s with currentmat := some m }) := by
  rw [List.get?_eq_getElem?] at hname
  constructor
  · intro hmiss
    simp [parseLine, hnb, hsp, hname, hmiss]
  · intro m hfound
    simp [parseLine, hnb, hsp, hname, hfound]

/-- Witness: `usemtl m` fails on an empty registry and succeeds — setting
the current material — once `m` is registered. -/
theorem c4_usemtl_witness :
    parseLine fsNone { initGState with mats := [("m", matGray)] } "usemtl m" =
      .ok { initGState with mats := [("m", matGray)], currentmat := some matGray } :=
  (c4_usemtl fsNone { initGState with mats := [("m", matGray)] } "usemtl m" "m" ["m"]
      (by decide) (by decide) (by decide)).2 matGray (by decide)

/-! ## Claim C6: the perturbation mutates the vertex table -/

/-- C6 (counterexample to the claim as stated): constructing an asteroid
with the constant draw 2 yields a state whose vertex table differs from
the freshly parsed one — `vertex *= random.uniform(...)` multiplies the
shared numpy arrays in place, so the base mesh's vertex table IS
modified and the parsed values survive nowhere in the constructed
model. -/
theorem c6_base_table_modified :
    (asteroidInit fsAst (fun _ => ⟨2, 0⟩)).map GState.vertices ≠
      (parse_model fsAst docAst).map GState.vertices := by decide

/-- C6 (amended): the perturbation rescales the vertex table in place —
slot `j+1` of the constructed state is the parsed vertex multiplied by
draw `j`, slot 0 keeps its placeholder, and the parsed table is not
retained.  Successive `AsteroidModel` constructions are nevertheless
independent, because each re-parses `asteroid.obj` from scratch rather
than re-using a preserved base mesh. -/
theorem c6_perturb_in_place (fs : String → Option (List String))
    (lines : List String) (rng : Nat → Dec) (s : GState) (vsp : List (Option Vec3))
    (hfile : fs "asteroid.obj" = some lines)
    (hparse : parse_model fs lines = .ok s)
    (hperturb : perturbVertices s.vertices rng = .ok vsp) :
    asteroidInit fs rng = .ok { s with vertices := vsp } ∧
    vsp.length = s.vertices.length ∧
    vsp.head? = s.vertices.head? ∧
    (∀ j v, s.vertices.get? (j + 1) = some (some v) →
      vsp.get? (j + 1) = some (some (scaleVec v (rng j)))) := by
  refine ⟨by simp [asteroidInit, hfile, hparse, hperturb, bind, Except.bind], ?_⟩
  cases hvs : s.vertices with
  | nil =>
    rw [hvs] at hperturb
    simp only [perturbVertices] at hperturb
    injection hperturb with hperturb
    simp [← hperturb]
  | cons v0 restv =>
    rw [hvs] at hperturb
    simp only [perturbVertices] at hperturb
    cases hr : perturbTail rng 0 restv with
    | error e => rw [hr] at hperturb; simp [bind, Except.bind] at hperturb
    | ok restp =>
      rw [hr] at hperturb; simp only [bind, Except.bind] at hperturb
      injection hperturb with hperturb
      obtain ⟨hlen, hget⟩ := perturbTail_sound rng 0 restv restp hr
      refine ⟨by simp [← hperturb, hlen], by simp [← hperturb], ?_⟩
      intro j v hj
      simp only [List.get?] at hj ⊢
      rw [← hperturb]
      simp only [List.get?]
      simpa using hget j v hj

/-- Witness: the triangle asteroid document, perturbed with constant
draw 2, produces exactly the doubled vertex table. -/
theorem c6_perturb_in_place_witness :
    asteroidInit fsAst (fun _ => ⟨2, 0⟩) = .ok { stAst with vertices := vsAst2 } :=
  (c6_perturb_in_place fsAst docAst (fun _ => ⟨2, 0⟩) stAst vsAst2
      (by decide) (by decide) (by decide)).1

/-! ## Claim C7: unit randomness source is the identity -/

/-- C7: perturbing with a randomness source that always returns 1
reproduces the parsed base state exactly: every parsed vertex table has
the `None` placeholder at slot 0 (skipped by the `[1:]` slice) and
defined vertices after it, and scaling by 1 is the identity, so
`AsteroidModel` built on a unit source equals the plain parse. -/
theorem c7_unit_perturbation (fs : String → Option (List String))
    (lines : List String) (s : GState)
    (hfile : fs "asteroid.obj" = some lines)
    (hparse : parse_model fs lines = .ok s) :
    asteroidInit fs (fun _ => ⟨1, 0⟩) = .ok s := by
  obtain ⟨ap, hv, hn⟩ := parse_model_vertices fs lines s hparse
  have hp : perturbVertices s.vertices (fun _ => ⟨1, 0⟩) = .ok s.vertices := by
    rw [hv]
    simp [perturbVertices, perturbTail_unit 0 ap hn, bind, Except.bind]
  simp [asteroidInit, hfile, hparse, hp, bind, Except.bind]

/-- Witness: the triangle asteroid document under the unit source gives
back the parsed state verbatim. -/
theorem c7_unit_perturbation_witness :
    asteroidInit fsAst (fun _ => ⟨1, 0⟩) = .ok stAst :=
  c7_unit_perturbation fsAst docAst stAst (by decide) (by decide)

/-! ## Claim C8: only ambient/diffuse are ever applied -/

/-- The per-point emission contains only normal/vertex calls. -/
theorem pointCmds_not_spec (s : GState) (p : FacePoint) (c : GLCmd)
    (hc : c ∈ pointCmds s p) : isSpecOrEmission c = false := by
  simp [pointCmds] at hc
  rcases hc with rfl | rfl <;> rfl

/-- Bucket emission contains only begin/end/normal/vertex calls. -/
theorem batchCmds_not_spec (s : GState) (b : Batch) :
    ∀ c ∈ batchCmds s b, isSpecOrEmission c = false := by
  unfold batchCmds
  refine List.forall_mem_append.mpr ⟨List.forall_mem_append.mpr ⟨?_, ?_⟩, ?_⟩
  · split
    · simp
    · refine List.forall_mem_append.mpr ⟨List.forall_mem_append.mpr ⟨?_, ?_⟩, ?_⟩
      · simp [isSpecOrEmission]
      · intro c hc
        obtain ⟨poly, hpoly, hcm⟩ := List.mem_flatMap.mp hc
        split at hcm
        · rcases List.mem_append.mp hcm with hcm | hcm
          · rcases List.mem_append.mp hcm with hcm | hcm <;>
              exact pointCmds_not_spec s _ c hcm
          · exact pointCmds_not_spec s _ c hcm
        · simp at hcm
      · simp [isSpecOrEmission]
  · split
    · simp
    · refine List.forall_mem_append.mpr ⟨List.forall_mem_append.mpr ⟨?_, ?_⟩, ?_⟩
      · simp [isSpecOrEmission]
      · intro c hc
        obtain ⟨poly, hpoly, hcm⟩ := List.mem_flatMap.mp hc
        split at hcm
        · rcases List.mem_append.mp hcm with hcm | hcm
          · rcases List.mem_append.mp hcm with hcm | hcm
            · rcases List.mem_append.mp hcm with hcm | hcm <;>
                exact pointCmds_not_spec s _ c hcm
            · exact pointCmds_not_spec s _ c hcm
          · exact pointCmds_not_spec s _ c hcm
        · simp at hcm
      · simp [isSpecOrEmission]
  · intro c hc
    obtain ⟨poly, hpoly, hcm⟩ := List.mem_flatMap.mp hc
    rcases List.mem_append.mp hcm with hcm | hcm
    · rcases List.mem_append.mp hcm with hcm | hcm
      · simp at hcm
        subst hcm
        rfl
      · obtain ⟨p, hp, hcp⟩ := List.mem_flatMap.mp hcm
        exact pointCmds_not_spec s p c hcp
    · simp at hcm
      subst hcm
      rfl

/-- C8: `_Material.activate` issues exactly the ambient and diffuse
`glMaterialfv` calls (the specular and emission lines are commented out
in the source), and nothing anywhere in a render trace ever applies a
specular or emission component. -/
theorem c8_ambient_diffuse_only :
    (∀ m : Material, m.activate = [.matAmbient m.ambient, .matDiffuse m.diffuse]) ∧
    (∀ (s : GState) (c : GLCmd), c ∈ render s → isSpecOrEmission c = false) := by
  refine ⟨fun m => rfl, ?_⟩
  intro s c hc
  obtain ⟨kv, hkv, hcm⟩ := List.mem_flatMap.mp hc
  rcases List.mem_append.mp hcm with hcm | hcm
  · split at hcm
    · simp [Material.activate] at hcm
      rcases hcm with rfl | rfl <;> rfl
    · simp at hcm
  · exact batchCmds_not_spec s kv.2 c hcm

/-- Witness: in the render trace of a state with one registered
material, the ambient activation occurs and is not a specular or
emission call. -/
theorem c8_ambient_diffuse_only_witness :
    isSpecOrEmission (.matAmbient matGray.ambient) = false :=
  c8_ambient_diffuse_only.2 stRender (.matAmbient matGray.ambient) (by decide)

/-! ## Claim C9: channel selected by the raw line's second character -/

/-- Each of the four colour keywords starts with `'K'`. -/
theorem colorKwHead (kw : String) (c1 : Char) (t : List Char)
    (hkw : kw = "Ka" ∨ kw = "Kd" ∨ kw = "Ks" ∨ kw = "Ke")
    (h : kw.data = c1 :: t) : c1 = 'K' := by
  have hh : kw.data.head? = some 'K' := by
    rcases hkw with rfl | rfl | rfl | rfl <;> decide
  rw [h, List.head?_cons] at hh
  exact Option.some.inj hh

/-- C9: the colour-channel lookup uses `line[1]` — the second character
of the RAW line — not the parsed keyword; hence a recognised
`Ka`/`Kd`/`Ks`/`Ke` record preceded by any leading whitespace fails with
`KeyError` (the dict `m` has no entry for `'K'` nor for a whitespace
character), even though the keyword itself was recognised by the
stripped-and-split dispatch. -/
theorem c9_leading_whitespace (st : MState) (line : String) (c0 c1 : Char)
    (cs : List Char) (kw : String) (rest toks : List String) (vals : List Dec)
    (hdata : line.data = c0 :: c1 :: cs)
    (hws : pyIsSpace c0 = true)
    (hstrip : pySplit (pyStrip line) = kw :: rest)
    (hkw : kw = "Ka" ∨ kw = "Kd" ∨ kw = "Ks" ∨ kw = "Ke")
    (hraw : pySplit line = kw :: toks)
    (hvals : toks.mapM parseFloat = .ok vals) :
    parsematLine st line = .error .keyError := by
  have hraw2 : splitAux (c0 :: c1 :: cs) [] = kw :: toks := by
    simpa [pySplit, hdata] using hraw
  have hch : channelIndex c1 = .error .keyError := by
    by_cases hc1 : pyIsSpace c1 = true
    · refine channelIndex_notfound c1 ?_ ?_ ?_ ?_ <;>
        (rintro rfl; exact absurd hc1 (by decide))
    · have hstep : splitAux cs [c1] = kw :: toks := by
        simpa [splitAux, hws, hc1] using hraw2
      obtain ⟨t, r, ht⟩ := splitAux_cons_acc cs c1 []
      rw [ht] at hstep
      simp only [List.reverse_cons, List.reverse_nil, List.nil_append,
        List.singleton_append] at hstep
      injection hstep with h1 h2
      have hcK : c1 = 'K' := colorKwHead kw c1 t hkw (by rw [← h1])
      subst hcK
      decide
  have hne : kw ≠ "newmtl" := by
    rcases hkw with rfl | rfl | rfl | rfl <;> decide
  simp only [parsematLine, hstrip, if_neg hne, if_pos hkw, bind, Except.bind]
  rw [hraw]
  simp only [List.drop_succ_cons, List.drop_zero]
  rw [hvals]
  simp only [secondChar, hdata]
  rw [hch]

/-- Witness: the record `" Ka 1"` — keyword `Ka`, one leading blank —
fails with `KeyError` even inside a well-formed material. -/
theorem c9_leading_whitespace_witness :
    parsematLine stInMat " Ka 1" = .error .keyError :=
  c9_leading_whitespace stInMat " Ka 1" ' ' 'K' ['a', ' ', '1'] "Ka" ["1"] ["1"]
    [⟨1, 0⟩] (by decide) (by decide) (by decide) (by decide) (by decide) (by decide)

/-! ## Claim C10: colour record before any `newmtl` -/

/-- A line whose keyword is neither `newmtl` nor a colour record leaves
the `_parsemat` state untouched. -/
theorem parsematLine_skip (st : MState) (l : String)
    (hn : firstTok l ≠ some "newmtl")
    (hc : isColorKw (firstTok l) = false) :
    parsematLine st l = .ok st := by
  unfold parsematLine
  cases hsp : pySplit (pyStrip l) with
  | nil => rfl
  | cons w ws =>
    have hw : firstTok l = some w := by simp [firstTok, hsp]
    rw [hw] at hn hc
    simp only [isColorKw, Bool.or_eq_false_iff, decide_eq_false_iff_not] at hc
    obtain ⟨⟨⟨h1, h2⟩, h3⟩, h4⟩ := hc
    have hnw : w ≠ "newmtl" := fun h => hn (by rw [h])
    dsimp only
    rw [if_neg hnw, if_neg (by rintro (rfl | rfl | rfl | rfl) <;> simp_all)]

/-- A colour record reached while no material is in progress
(`mat = None`) always fails: a malformed number raises `ValueError`, a
short line raises `IndexError`, a bad second character raises
`KeyError`, and otherwise `mat[...] = color` on `None` raises
`TypeError`. -/
theorem parsematLine_color_noMat (st : MState) (l : String)
    (hmat : st.mat = none)
    (hc : isColorKw (firstTok l) = true) :
    ∃ e, parsematLine st l = .error e := by
  unfold parsematLine
  cases hsp : pySplit (pyStrip l) with
  | nil => simp [firstTok, hsp, isColorKw] at hc
  | cons w ws =>
    have hw : firstTok l = some w := by simp [firstTok, hsp]
    rw [hw] at hc
    simp only [isColorKw, Bool.or_eq_true, decide_eq_true_eq] at hc
    have hor : w = "Ka" ∨ w = "Kd" ∨ w = "Ks" ∨ w = "Ke" := by tauto
    have hnw : w ≠ "newmtl" := by
      rcases hor with rfl | rfl | rfl | rfl <;> decide
    dsimp only
    rw [if_neg hnw, if_pos hor]
    cases hm : ((pySplit l).drop 1).mapM parseFloat with
    | error e => exact ⟨e, by simp [bind, Except.bind, hm]⟩
    | ok vals =>
      cases hsc : secondChar l with
      | error e => exact ⟨e, by simp [bind, Except.bind, hm, hsc]⟩
      | ok ch =>
        cases hci : channelIndex ch with
        | error e => exact ⟨e, by simp [bind, Except.bind, hm, hsc, hci]⟩
        | ok idx => exact ⟨.typeError, by simp [bind, Except.bind, hm, hsc, hci, hmat]⟩

/-- Skipped lines leave the fold of `_parsemat` where it started. -/
theorem foldlM_skip (st : MState) (pre : List String) (cl : String)
    (post : List String)
    (hpre : ∀ l ∈ pre, firstTok l ≠ some "newmtl" ∧ isColorKw (firstTok l) = false) :
    (pre ++ cl :: post).foldlM parsematLine st = (cl :: post).foldlM parsematLine st := by
  induction pre with
  | nil => rfl
  | cons p ps ih =>
    have hskip := parsematLine_skip st p (hpre p (by simp)).1 (hpre p (by simp)).2
    simp only [List.cons_append, List.foldlM, hskip, bind, Except.bind]
    exact ih (fun l hl => hpre l (by simp [hl]))

/-- C10: a material library whose first colour record precedes every
`newmtl` fails to parse — the record is reached with `mat = None`, so it
is neither silently ignored nor attached to a later material; the
parse aborts with an exception. -/
theorem c10_color_before_newmtl (fs : String → Option (List String))
    (mats : List (String × Material)) (ctr : Nat) (fname : String)
    (pre : List String) (cl : String) (post : List String)
    (hfile : fs fname = some (pre ++ cl :: post))
    (hpre : ∀ l ∈ pre, firstTok l ≠ some "newmtl" ∧ isColorKw (firstTok l) = false)
    (hcl : isColorKw (firstTok cl) = true) :
    ∃ e, parsemat fs mats ctr fname = .error e := by
  obtain ⟨e, he⟩ := parsematLine_color_noMat ⟨mats, none, none, ctr⟩ cl rfl hcl
  refine ⟨e, ?_⟩
  unfold parsemat
  rw [hfile]
  dsimp only
  rw [foldlM_skip ⟨mats, none, none, ctr⟩ pre cl post hpre]
  simp [List.foldlM, he, bind, Except.bind]

/-- Witness: a library opening with a comment and then `Ka 1 1 1` before
its first `newmtl` fails to parse. -/
theorem c10_color_before_newmtl_witness :
    ∃ e, parsemat fsEarlyColor [] 0 "a.mtl" = .error e :=
  c10_color_before_newmtl fsEarlyColor [] 0 "a.mtl" ["# comment"] "Ka 1 1 1"
    ["newmtl m"] (by decide) (by decide) (by decide)

end ObjModelSpec
